import Mathlib

/-!
A shallow embedding of the V8 adaptive tiering controller
(src/execution/tiering-manager.cc) and of the parts of the builtins
registry (src/builtins/builtins.cc) that the tiering claims refer to.

Pure decision logic is translated to Lean functions; the mutable state a
controller call touches (the bytecode array's `osr_loop_nesting_level`,
the function's optimization marks, the manager's `any_ic_changed_` bit)
is threaded explicitly.  Calls into `JSFunction::MarkForOptimization`
are additionally recorded as events so "no mark was issued" is a plain
statement about an event list.
-/

namespace V8

/-- Code kinds relevant to the tiering controller (subset of V8's
`CodeKind` enum actually distinguished by tiering-manager.cc). -/
inductive CodeKind where
  | INTERPRETED_FUNCTION
  | BASELINE
  | MAGLEV
  | TURBOFAN
deriving DecidableEq, Repr

/-- `CodeKindIsUnoptimizedJSFunction`: true for the interpreter and
baseline tiers. -/
def CodeKindIsUnoptimizedJSFunction : CodeKind → Bool
  | CodeKind.INTERPRETED_FUNCTION => true
  | CodeKind.BASELINE => true
  | CodeKind.MAGLEV => false
  | CodeKind.TURBOFAN => false

inductive OptimizationReason where
  | kDoNotOptimize
  | kHotAndStable
  | kSmallFunction
deriving DecidableEq, Repr

inductive ConcurrencyMode where
  | kConcurrent
  | kNotConcurrent
deriving DecidableEq, Repr

structure OptimizationDecision where
  optimization_reason : OptimizationReason
  code_kind : CodeKind
  concurrency_mode : ConcurrencyMode
deriving DecidableEq, Repr

def OptimizationDecision.Maglev : OptimizationDecision :=
  ⟨OptimizationReason.kHotAndStable, CodeKind.MAGLEV, ConcurrencyMode.kNotConcurrent⟩

def OptimizationDecision.TurbofanHotAndStable : OptimizationDecision :=
  ⟨OptimizationReason.kHotAndStable, CodeKind.TURBOFAN, ConcurrencyMode.kConcurrent⟩

def OptimizationDecision.TurbofanSmallFunction : OptimizationDecision :=
  ⟨OptimizationReason.kSmallFunction, CodeKind.TURBOFAN, ConcurrencyMode.kConcurrent⟩

/-- `DoNotOptimize()`: the code-kind and concurrency fields do not
matter but have to hold something (the source passes TURBOFAN /
concurrent). -/
def OptimizationDecision.DoNotOptimize : OptimizationDecision :=
  ⟨OptimizationReason.kDoNotOptimize, CodeKind.TURBOFAN, ConcurrencyMode.kConcurrent⟩

def OptimizationDecision.should_optimize (d : OptimizationDecision) : Bool :=
  d.optimization_reason ≠ OptimizationReason.kDoNotOptimize

/-- OSR bytecode size allowance constants (tiering-manager.cc). -/
def kOSRBytecodeSizeAllowanceBase : Nat := 119

def kOSRBytecodeSizeAllowancePerTick : Nat := 44

/-- Modelled from the spec: `AbstractCode::kMaxLoopNestingMarker` is
declared outside the supplied sources; the spec only calls it
`max_loop_nesting_marker`.  Its concrete value is a model parameter
and no theorem below depends on it. -/
def kMaxLoopNestingMarker : Nat := 6

/-- Modelled from the spec: `profiler_ticks` is a "monotonically
non-decreasing saturating counter"; the saturation bound lives outside
the supplied sources.  No theorem below depends on its value. -/
def kProfilerTicksSaturationBound : Nat := 2 ^ 30 - 1

/-- Modelled from the spec: `FeedbackVector::SaturatingIncrementProfilerTicks`
is declared outside the supplied sources; per the spec it increments the
counter, saturating instead of overflowing. -/
def SaturatingIncrementProfilerTicks (t : Nat) : Nat :=
  if t < kProfilerTicksSaturationBound then t + 1 else t

/-- The global flags read by the tiering controller. -/
structure Flags where
  maglev : Bool
  use_osr : Bool
  always_osr : Bool
  testing_d8_test_runner : Bool
  lazy_feedback_allocation : Bool
  baseline_batch_compilation : Bool
  interrupt_budget : Int
  interrupt_budget_for_maglev : Int
  interrupt_budget_for_feedback_allocation : Int
  interrupt_budget_factor_for_feedback_allocation : Int
  ticks_before_optimization : Nat
  bytecode_size_allowance_per_tick : Nat
  max_bytecode_size_for_early_opt : Nat

/-- A bytecode array: its length, the mutable `osr_loop_nesting_level`
header field, and the per-offset data the OSR-cache path of
`ShouldOptimize` reads through a `BytecodeArrayIterator`
(`GetJumpTargetOffset` and `GetImmediateOperand(1)` at a given offset). -/
structure BytecodeArray where
  length : Nat
  osr_loop_nesting_level : Nat
  jumpTargetOffset : Nat → Nat
  immediateOperand1 : Nat → Nat

def BytecodeArray.set_osr_loop_nesting_level (bc : BytecodeArray) (v : Nat) :
    BytecodeArray :=
  { bc with osr_loop_nesting_level := v }

/-- `OSRCodeCacheStateOfSFI`; the source tests `state > kNotCached`. -/
inductive OSRCodeCacheState where
  | kNotCached
  | kCachedOnce
  | kCachedMultiple
deriving DecidableEq, Repr

/-- The source's `osr_code_cache_state() > kNotCached` test
(`kNotCached` is the first enumerator). -/
def OSRCodeCacheState.gtNotCached : OSRCodeCacheState → Bool
  | OSRCodeCacheState.kNotCached => false
  | OSRCodeCacheState.kCachedOnce => true
  | OSRCodeCacheState.kCachedMultiple => true

structure SharedFunctionInfo where
  bytecode : BytecodeArray
  is_user_javascript : Bool
  optimization_disabled : Bool
  osr_code_cache_state : OSRCodeCacheState

/-- The attributes of a `JSFunction` (and of its feedback vector) that
the controller reads or writes. -/
structure JSFunction where
  shared : SharedFunctionInfo
  has_feedback_vector : Bool
  profiler_ticks : Nat
  invocation_count : Nat
  interrupt_budget : Int
  in_optimization_queue : Bool
  marked_for_optimization : Bool
  marked_for_concurrent_optimization : Bool
  has_available_optimized_code : Bool
  active_tier : CodeKind

/-- Write the function's bytecode array's `osr_loop_nesting_level`. -/
def JSFunction.setOsrLevel (f : JSFunction) (v : Nat) : JSFunction :=
  { f with shared :=
      { f.shared with bytecode := f.shared.bytecode.set_osr_loop_nesting_level v } }

/-- The interpreted frame data the controller reads: whether the frame
is unoptimized and the current bytecode offset. -/
structure Frame where
  is_unoptimized : Bool
  bytecode_offset : Nat

/-- Per-tick environment delivered by external collaborators: the OSR
code cache's `GetBytecodeOffsetsFromSFI` answer, the pending-optimization
table's answer, and `isolate->use_optimizer()`. -/
structure TickEnv where
  cache_offsets : List Nat
  heuristic_optimization_allowed : Bool
  use_optimizer : Bool

/-- A recorded `MarkForOptimization` call. -/
structure MarkEvent where
  code_kind : CodeKind
  concurrency_mode : ConcurrencyMode
deriving DecidableEq, Repr

/-- Modelled from the spec: `JSFunction::MarkForOptimization(tier, mode)`
is declared outside the supplied sources; per the spec it sets the
function's marked-for-optimization / marked-for-concurrent-optimization
flag according to the concurrency mode. -/
def MarkForOptimization (f : JSFunction) (_code_kind : CodeKind)
    (mode : ConcurrencyMode) : JSFunction :=
  match mode with
  | ConcurrencyMode.kConcurrent => { f with marked_for_concurrent_optimization := true }
  | ConcurrencyMode.kNotConcurrent => { f with marked_for_optimization := true }
  -- code_kind is recorded by the event, not by a modelled flag


def TiersUpToMaglev (flags : Flags) (code_kind : CodeKind) : Bool :=
  flags.maglev && CodeKindIsUnoptimizedJSFunction code_kind

/-- `TieringManager::InterruptBudgetFor`. -/
def InterruptBudgetFor (flags : Flags) (f : JSFunction) : Int :=
  if f.has_feedback_vector then
    if TiersUpToMaglev flags f.active_tier then flags.interrupt_budget_for_maglev
    else flags.interrupt_budget
  else
    (f.shared.bytecode.length : Int) *
      flags.interrupt_budget_factor_for_feedback_allocation

/-- `TieringManager::InitialInterruptBudget`. -/
def InitialInterruptBudget (flags : Flags) : Int :=
  if flags.lazy_feedback_allocation then flags.interrupt_budget_for_feedback_allocation
  else flags.interrupt_budget

/-- `TieringManager::AttemptOnStackReplacement` acting on the frame's
function (the frame's bytecode array is the function's). -/
def AttemptOnStackReplacement (flags : Flags) (f : JSFunction)
    (loop_nesting_levels : Nat) : JSFunction :=
  if !flags.use_osr || !f.shared.is_user_javascript then f
  else if f.shared.optimization_disabled then f
  else
    f.setOsrLevel
      (min (f.shared.bytecode.osr_loop_nesting_level + loop_nesting_levels)
        kMaxLoopNestingMarker)

/-- `TieringManager::MaybeOSR`: the returned function carries the side
effect of the conditional `AttemptOnStackReplacement` call. -/
def MaybeOSR (flags : Flags) (f : JSFunction) : Bool × JSFunction :=
  let ticks := f.profiler_ticks
  if f.marked_for_optimization || f.marked_for_concurrent_optimization ||
      f.has_available_optimized_code then
    if f.shared.bytecode.length ≤
        kOSRBytecodeSizeAllowanceBase + ticks * kOSRBytecodeSizeAllowancePerTick then
      (true, AttemptOnStackReplacement flags f 1)
    else (true, f)
  else (false, f)

/-- `ShouldOptimizeAsSmallFunction` (anonymous namespace helper). -/
def ShouldOptimizeAsSmallFunction (flags : Flags) (bytecode_size : Nat)
    (any_ic_changed : Bool) : Bool :=
  !any_ic_changed && bytecode_size < flags.max_bytecode_size_for_early_opt

/-- The ticks-required formula of `ShouldOptimize`
(`ticks_for_optimization`); `/` is C++ non-negative integer division. -/
def ticksForOptimization (flags : Flags) (bytecode_length : Nat) : Nat :=
  flags.ticks_before_optimization +
    bytecode_length / flags.bytecode_size_allowance_per_tick

/-- The loop of the OSR-code-cache path of `ShouldOptimize`: find the
first cached jump offset whose `[jump_target_offset, jump_offset]`
range brackets the current bytecode offset. -/
def osrCacheScan (bc : BytecodeArray) (current_offset : Nat) :
    List Nat → Option Nat
  | [] => none
  | jump_offset :: rest =>
    if jump_offset ≥ current_offset &&
        current_offset ≥ bc.jumpTargetOffset jump_offset then some jump_offset
    else osrCacheScan bc current_offset rest

/-- The guard plus loop of the OSR-code-cache path of `ShouldOptimize`:
only entered when the SFI's cache state is past `kNotCached` and the
frame is unoptimized. -/
def osrCacheLookup (env : TickEnv) (f : JSFunction) (frame : Frame) :
    Option Nat :=
  if f.shared.osr_code_cache_state.gtNotCached && frame.is_unoptimized then
    osrCacheScan f.shared.bytecode frame.bytecode_offset env.cache_offsets
  else none

/-- `TieringManager::ShouldOptimize`; the returned function carries the
OSR-cache path's direct write of `osr_loop_nesting_level`. -/
def ShouldOptimize (flags : Flags) (env : TickEnv) (any_ic_changed : Bool)
    (f : JSFunction) (code_kind : CodeKind) (frame : Frame) :
    OptimizationDecision × JSFunction :=
  if TiersUpToMaglev flags code_kind then (OptimizationDecision.Maglev, f)
  else if code_kind = CodeKind.TURBOFAN then
    (OptimizationDecision.DoNotOptimize, f)
  else
    match osrCacheLookup env f frame with
    | some jump_offset =>
        (OptimizationDecision.TurbofanHotAndStable,
          f.setOsrLevel (f.shared.bytecode.immediateOperand1 jump_offset + 1))
    | none =>
        if f.profiler_ticks ≥ ticksForOptimization flags f.shared.bytecode.length then
          (OptimizationDecision.TurbofanHotAndStable, f)
        else if ShouldOptimizeAsSmallFunction flags f.shared.bytecode.length
            any_ic_changed then
          (OptimizationDecision.TurbofanSmallFunction, f)
        else (OptimizationDecision.DoNotOptimize, f)

/-- `TieringManager::Optimize`: mark the function and record the call. -/
def Optimize (f : JSFunction) (d : OptimizationDecision) :
    JSFunction × MarkEvent :=
  (MarkForOptimization f d.code_kind d.concurrency_mode,
    ⟨d.code_kind, d.concurrency_mode⟩)

/-- Steps 5-6 of `MaybeOptimizeFrame`: compute the decision and, when it
says to optimize, call `Optimize`. -/
def decideAndOptimize (flags : Flags) (env : TickEnv) (any_ic_changed : Bool)
    (f : JSFunction) (frame : Frame) (code_kind : CodeKind) :
    JSFunction × List MarkEvent :=
  let r := ShouldOptimize flags env any_ic_changed f code_kind frame
  if r.1.should_optimize then
    let o := Optimize r.2 r.1
    (o.1, [o.2])
  else (r.2, [])

/-- `TieringManager::MaybeOptimizeFrame`. -/
def MaybeOptimizeFrame (flags : Flags) (env : TickEnv) (any_ic_changed : Bool)
    (f : JSFunction) (frame : Frame) (code_kind : CodeKind) :
    JSFunction × List MarkEvent :=
  if f.in_optimization_queue then (f, [])
  else if flags.testing_d8_test_runner && !env.heuristic_optimization_allowed then
    (f, [])
  else if f.shared.optimization_disabled then (f, [])
  else if frame.is_unoptimized && flags.always_osr then
    -- arm OSR at maximum nesting and fall through to a normal compile
    decideAndOptimize flags env any_ic_changed
      (AttemptOnStackReplacement flags f kMaxLoopNestingMarker) frame code_kind
  else if frame.is_unoptimized then
    let r := MaybeOSR flags f
    if r.1 then (r.2, [])
    else decideAndOptimize flags env any_ic_changed r.2 frame code_kind
  else decideAndOptimize flags env any_ic_changed f frame code_kind

/-- The observable result of one `OnInterruptTick`: the function state,
the manager's `any_ic_changed_` bit after the tick (the
`OnInterruptTickScope` destructor clears it on every exit path of the
scope), and the `MarkForOptimization` calls issued. -/
structure TickResult where
  func : JSFunction
  any_ic_changed : Bool
  marks : List MarkEvent

/-- Step 2 of `OnInterruptTick`: with a feedback vector, re-seed the
interrupt budget (`SetInterruptBudget`); without one, create and attach
a vector and set `invocation_count = 1`. -/
def tickEnsureFeedbackVector (flags : Flags) (f : JSFunction) : JSFunction :=
  if f.has_feedback_vector then
    { f with interrupt_budget := InterruptBudgetFor flags f }
  else
    { f with has_feedback_vector := true, invocation_count := 1 }

/-- `SaturatingIncrementProfilerTicks` applied to the function's
feedback vector inside the `OnInterruptTickScope`. -/
def tickBumpProfilerTicks (f : JSFunction) : JSFunction :=
  { f with profiler_ticks := SaturatingIncrementProfilerTicks f.profiler_ticks }

/-- `TieringManager::OnInterruptTick`.  Feedback-vector creation and
`SetInterruptBudget` are the externally visible state updates of step 2;
the baseline-compile step only calls external services. -/
def OnInterruptTick (flags : Flags) (env : TickEnv) (any_ic_changed : Bool)
    (f : JSFunction) (frame : Frame) : TickResult :=
  let had_feedback_vector := f.has_feedback_vector
  let f1 := tickEnsureFeedbackVector flags f
  if !had_feedback_vector then ⟨f1, any_ic_changed, []⟩
  else if !env.use_optimizer then ⟨f1, any_ic_changed, []⟩
  else
    let f2 := tickBumpProfilerTicks f1
    let r := MaybeOptimizeFrame flags env any_ic_changed f2 frame f2.active_tier
    ⟨r.1, false, r.2⟩

/-- One controller operation, for stating state-evolution invariants
over arbitrary operation sequences. -/
inductive ControllerOp where
  | opTick (flags : Flags) (env : TickEnv) (any_ic : Bool) (frame : Frame)
  | opMaybeOptimizeFrame (flags : Flags) (env : TickEnv) (any_ic : Bool)
      (frame : Frame) (code_kind : CodeKind)
  | opShouldOptimize (flags : Flags) (env : TickEnv) (any_ic : Bool)
      (code_kind : CodeKind) (frame : Frame)
  | opAttemptOSR (flags : Flags) (loop_nesting_levels : Nat)

/-- Apply one controller operation to a function's state. -/
def applyOp (f : JSFunction) : ControllerOp → JSFunction
  | ControllerOp.opTick flags env any_ic frame =>
      (OnInterruptTick flags env any_ic f frame).func
  | ControllerOp.opMaybeOptimizeFrame flags env any_ic frame code_kind =>
      (MaybeOptimizeFrame flags env any_ic f frame code_kind).1
  | ControllerOp.opShouldOptimize flags env any_ic code_kind frame =>
      (ShouldOptimize flags env any_ic f code_kind frame).2
  | ControllerOp.opAttemptOSR flags n => AttemptOnStackReplacement flags f n

/-- Run a sequence of controller operations. -/
def runOps (f : JSFunction) : List ControllerOp → JSFunction
  | [] => f
  | op :: rest => runOps (applyOp f op) rest

/-!
The builtins registry (src/builtins/builtins.cc): the continuation
bytecode-offset bijection, `set_code`'s table-identity invariant, and
the `code_handle` / `IsBuiltinHandle` address-range identity.
Builtin ids are integers (`Builtins::ToInt` / `Builtins::FromInt` are
numeric casts); handle locations are slot addresses in units of one
table slot, as in the source's `Address*` arithmetic.
-/

/-- `Builtins::Kind`. -/
inductive Kind where
  | CPP
  | TFJ
  | TFC
  | TFS
  | TFH
  | BCH
  | ASM
deriving DecidableEq, Repr

/-- Modelled from the spec: `BytecodeOffset::kFirstBuiltinContinuationId`
is declared outside the supplied sources; the spec only calls it "a
fixed base constant".  Its concrete value is a model parameter and no
theorem below depends on it. -/
def kFirstBuiltinContinuationId : Int := 2 ^ 30

/-- `Builtins::GetContinuationBytecodeOffset`. -/
def GetContinuationBytecodeOffset (builtin : Int) : Int :=
  kFirstBuiltinContinuationId + builtin

/-- `Builtins::GetBuiltinFromBytecodeOffset`. -/
def GetBuiltinFromBytecodeOffset (id : Int) : Int :=
  id - kFirstBuiltinContinuationId

/-- A code object, abstracted to the field the builtin-table identity
invariant is about. -/
structure Code where
  builtin_id : Int
deriving DecidableEq, Repr

/-- The isolate's builtin table, as the map from slot index to the
installed code object. -/
def BuiltinTable := Int → Code

/-- `Builtins::set_code`: store into the table slot.  The source's
`DCHECK_EQ(builtin, code->builtin_id())` precondition appears as a
hypothesis of the identity theorem. -/
def set_code (table : BuiltinTable) (builtin : Int) (code : Code) :
    BuiltinTable :=
  fun i => if i = builtin then code else table i

/-- A sequence of `set_code` installs. -/
def installAll (table : BuiltinTable) : List (Int × Code) → BuiltinTable
  | [] => table
  | (b, c) :: rest => installAll (set_code table b c) rest

/-- `Builtins::code_handle`: the handle's location is the address of the
table slot (`&builtin_table()[ToInt(builtin)]`), in slot units over a
table based at `table_base`. -/
def code_handle (table_base : Int) (builtin : Int) : Int :=
  table_base + builtin

/-- `Builtins::IsBuiltinHandle`: a pure address-range check over the
builtin table (`kBuiltinCount` slots based at `table_base`); `none`
models the `false` return, `some i` the `true` return with `*builtin`
set to the recovered index. -/
def IsBuiltinHandle (table_base : Int) (kBuiltinCount : Nat)
    (handle_location : Int) : Option Int :=
  if handle_location < table_base then none
  else if handle_location ≥ table_base + kBuiltinCount then none
  else some (handle_location - table_base)

/-!
Helper lemmas shared by the claim theorems.
-/

theorem unoptimizedJS_ne_turbofan {code_kind : CodeKind}
    (h : CodeKindIsUnoptimizedJSFunction code_kind = true) :
    code_kind ≠ CodeKind.TURBOFAN := by
  cases code_kind <;> simp_all [CodeKindIsUnoptimizedJSFunction]

theorem tiersUpToMaglev_of_maglev_off (flags : Flags) (code_kind : CodeKind)
    (h : flags.maglev = false) : TiersUpToMaglev flags code_kind = false := by
  simp [TiersUpToMaglev, h]

theorem markForOptimization_shared (f : JSFunction) (code_kind : CodeKind)
    (mode : ConcurrencyMode) :
    (MarkForOptimization f code_kind mode).shared = f.shared := by
  cases mode <;> rfl

/-- With no OSR-cache hit, `ShouldOptimize` leaves the function state
untouched. -/
theorem shouldOptimize_snd_of_no_cache_hit {env : TickEnv} {f : JSFunction}
    {frame : Frame} (flags : Flags) (any_ic_changed : Bool)
    (code_kind : CodeKind) (hcache : osrCacheLookup env f frame = none) :
    (ShouldOptimize flags env any_ic_changed f code_kind frame).2 = f := by
  simp only [ShouldOptimize, hcache]
  repeat' split
  all_goals rfl

/-- A `kNotCached` cache state means the OSR-cache path of
`ShouldOptimize` is not entered. -/
theorem osrCacheLookup_of_notCached {f : JSFunction} (env : TickEnv)
    (frame : Frame)
    (h : f.shared.osr_code_cache_state = OSRCodeCacheState.kNotCached) :
    osrCacheLookup env f frame = none := by
  simp [osrCacheLookup, h, OSRCodeCacheState.gtNotCached]

/-- C1: with maglev off, an unoptimized-JS active code kind and no
OSR-code-cache hit, `ShouldOptimize` returns TurbofanHotAndStable (a
top-tier, concurrent decision) whenever `profiler_ticks` reaches
`ticks_before_optimization + bytecode.length / bytecode_size_allowance_per_tick`,
and DoNotOptimize below that threshold when `any_ic_changed` is true or
the bytecode is not below `max_bytecode_size_for_early_opt`. -/
theorem shouldOptimize_tick_threshold (flags : Flags) (env : TickEnv)
    (any_ic_changed : Bool) (f : JSFunction) (code_kind : CodeKind)
    (frame : Frame) (hmaglev : flags.maglev = false)
    (hkind : CodeKindIsUnoptimizedJSFunction code_kind = true)
    (hcache : osrCacheLookup env f frame = none) :
    (f.profiler_ticks ≥ ticksForOptimization flags f.shared.bytecode.length →
      (ShouldOptimize flags env any_ic_changed f code_kind frame).1 =
        OptimizationDecision.TurbofanHotAndStable)
    ∧ (f.profiler_ticks < ticksForOptimization flags f.shared.bytecode.length →
        (any_ic_changed = true ∨
          flags.max_bytecode_size_for_early_opt ≤ f.shared.bytecode.length) →
        (ShouldOptimize flags env any_ic_changed f code_kind frame).1 =
          OptimizationDecision.DoNotOptimize)
    ∧ OptimizationDecision.TurbofanHotAndStable.code_kind = CodeKind.TURBOFAN
    ∧ OptimizationDecision.TurbofanHotAndStable.concurrency_mode =
        ConcurrencyMode.kConcurrent := by
  have hck : ¬ (code_kind = CodeKind.TURBOFAN) := unoptimizedJS_ne_turbofan hkind
  have hm := tiersUpToMaglev_of_maglev_off flags code_kind hmaglev
  refine ⟨?_, ?_, rfl, rfl⟩
  · intro hticks
    simp only [ShouldOptimize, hm, hcache, Bool.false_eq_true, if_false, if_neg hck]
    rw [if_pos hticks]
  · intro hticks hblocked
    have hsmall : ShouldOptimizeAsSmallFunction flags f.shared.bytecode.length
        any_ic_changed = false := by
      rcases hblocked with h | h
      · simp [ShouldOptimizeAsSmallFunction, h]
      · simp [ShouldOptimizeAsSmallFunction, Nat.not_lt.mpr h]
    simp only [ShouldOptimize, hm, hcache, Bool.false_eq_true, if_false, if_neg hck]
    rw [if_neg (Nat.not_le.mpr hticks)]
    simp [hsmall]

/-- Concrete flags used by the witnesses: `ticks_before_optimization=5`,
`bytecode_size_allowance_per_tick=50`, `max_bytecode_size_for_early_opt=80`. -/
def cFlags : Flags :=
  { maglev := false, use_osr := true, always_osr := false,
    testing_d8_test_runner := false, lazy_feedback_allocation := true,
    baseline_batch_compilation := false, interrupt_budget := 132,
    interrupt_budget_for_maglev := 40,
    interrupt_budget_for_feedback_allocation := 10,
    interrupt_budget_factor_for_feedback_allocation := 8,
    ticks_before_optimization := 5, bytecode_size_allowance_per_tick := 50,
    max_bytecode_size_for_early_opt := 80 }

/-- A concrete bytecode array of length 200 with one `JumpLoop` at
offset 120 whose jump target is offset 40 and whose immediate operand 1
is 2 (the spec's S5 loop). -/
def cBc : BytecodeArray :=
  { length := 200, osr_loop_nesting_level := 0,
    jumpTargetOffset := fun _ => 40, immediateOperand1 := fun _ => 2 }

def cShared : SharedFunctionInfo :=
  { bytecode := cBc, is_user_javascript := true, optimization_disabled := false,
    osr_code_cache_state := OSRCodeCacheState.kNotCached }

/-- A concrete user function after one tick. -/
def cFunc1 : JSFunction :=
  { shared := cShared, has_feedback_vector := true, profiler_ticks := 1,
    invocation_count := 1, interrupt_budget := 0, in_optimization_queue := false,
    marked_for_optimization := false, marked_for_concurrent_optimization := false,
    has_available_optimized_code := false,
    active_tier := CodeKind.INTERPRETED_FUNCTION }

/-- The same function after nine ticks. -/
def cFunc9 : JSFunction := { cFunc1 with profiler_ticks := 9 }

def cEnv : TickEnv :=
  { cache_offsets := [], heuristic_optimization_allowed := true,
    use_optimizer := true }

def cFrame : Frame := { is_unoptimized := true, bytecode_offset := 80 }

/-- Witness for `shouldOptimize_tick_threshold`: bytecode length 200,
required ticks 5 + 200/50 = 9; decision after 1 tick (ICs changed) is
DoNotOptimize, decision at tick 9 is TurbofanHotAndStable. -/
theorem shouldOptimize_tick_threshold_witness :
    (ShouldOptimize cFlags cEnv true cFunc9 CodeKind.INTERPRETED_FUNCTION
      cFrame).1 = OptimizationDecision.TurbofanHotAndStable
    ∧ (ShouldOptimize cFlags cEnv true cFunc1 CodeKind.INTERPRETED_FUNCTION
      cFrame).1 = OptimizationDecision.DoNotOptimize :=
  ⟨(shouldOptimize_tick_threshold cFlags cEnv true cFunc9
      CodeKind.INTERPRETED_FUNCTION cFrame rfl rfl rfl).1 (by decide),
    ((shouldOptimize_tick_threshold cFlags cEnv true cFunc1
      CodeKind.INTERPRETED_FUNCTION cFrame rfl rfl rfl).2).1 (by decide)
      (Or.inl rfl)⟩

/-- C2: below the hot-and-stable tick threshold (maglev off, not top
tier, no OSR-cache hit), `ShouldOptimize` returns TurbofanSmallFunction
exactly when `any_ic_changed` is false and the bytecode is below
`max_bytecode_size_for_early_opt`; and, for all inputs whatsoever, when
`any_ic_changed` is true no small-function decision is produced. -/
theorem shouldOptimize_small_function (flags : Flags) (env : TickEnv)
    (any_ic_changed : Bool) (f : JSFunction) (code_kind : CodeKind)
    (frame : Frame) (hmaglev : flags.maglev = false)
    (hkind : code_kind ≠ CodeKind.TURBOFAN)
    (hcache : osrCacheLookup env f frame = none)
    (hticks : f.profiler_ticks < ticksForOptimization flags f.shared.bytecode.length) :
    ((ShouldOptimize flags env any_ic_changed f code_kind frame).1 =
        OptimizationDecision.TurbofanSmallFunction ↔
      (any_ic_changed = false ∧
        f.shared.bytecode.length < flags.max_bytecode_size_for_early_opt))
    ∧ ∀ (flags2 : Flags) (env2 : TickEnv) (f2 : JSFunction)
        (code_kind2 : CodeKind) (frame2 : Frame),
        ((ShouldOptimize flags2 env2 true f2 code_kind2 frame2).1).optimization_reason ≠
          OptimizationReason.kSmallFunction := by
  constructor
  · have hm := tiersUpToMaglev_of_maglev_off flags code_kind hmaglev
    simp only [ShouldOptimize, hm, hcache, Bool.false_eq_true, if_false,
      if_neg hkind]
    rw [if_neg (Nat.not_le.mpr hticks)]
    cases hic : any_ic_changed
    · by_cases hlen :
        f.shared.bytecode.length < flags.max_bytecode_size_for_early_opt
      · rw [if_pos (by simp [ShouldOptimizeAsSmallFunction, hlen])]
        simp [hlen]
      · rw [if_neg (by simp [ShouldOptimizeAsSmallFunction, hlen])]
        simp only [hlen, and_false, iff_false]
        decide
    · rw [if_neg (by simp [ShouldOptimizeAsSmallFunction])]
      simp only [Bool.true_eq_false, false_and, iff_false]
      decide
  · intro flags2 env2 f2 code_kind2 frame2
    have hsmall : ShouldOptimizeAsSmallFunction flags2 f2.shared.bytecode.length
        true = false := by simp [ShouldOptimizeAsSmallFunction]
    simp only [ShouldOptimize, hsmall, Bool.false_eq_true, if_false]
    repeat' split
    all_goals simp [OptimizationDecision.Maglev, OptimizationDecision.DoNotOptimize,
      OptimizationDecision.TurbofanHotAndStable]

/-- Witness for `shouldOptimize_small_function`: length-40 stable
bytecode after one tick gives TurbofanSmallFunction; with ICs changed it
does not. -/
theorem shouldOptimize_small_function_witness :
    (ShouldOptimize cFlags cEnv false
        { cFunc1 with shared := { cShared with bytecode := { cBc with length := 40 } } }
        CodeKind.INTERPRETED_FUNCTION cFrame).1 =
      OptimizationDecision.TurbofanSmallFunction
    ∧ ((ShouldOptimize cFlags cEnv true
        { cFunc1 with shared := { cShared with bytecode := { cBc with length := 40 } } }
        CodeKind.BASELINE cFrame).1).optimization_reason ≠
      OptimizationReason.kSmallFunction := by
  constructor
  · exact ((shouldOptimize_small_function cFlags cEnv false
      { cFunc1 with shared := { cShared with bytecode := { cBc with length := 40 } } }
      CodeKind.INTERPRETED_FUNCTION cFrame rfl (by decide) rfl (by decide)).1).mpr
      ⟨rfl, by decide⟩
  · exact (shouldOptimize_small_function cFlags cEnv true
      { cFunc1 with shared := { cShared with bytecode := { cBc with length := 40 } } }
      CodeKind.INTERPRETED_FUNCTION cFrame rfl (by decide) rfl (by decide)).2
      cFlags cEnv
      { cFunc1 with shared := { cShared with bytecode := { cBc with length := 40 } } }
      CodeKind.BASELINE cFrame

/-- The concrete S6 function: already marked for optimization,
`profiler_ticks = 0`, bytecode length 120. -/
def cFuncS6 : JSFunction :=
  { cFunc1 with
    profiler_ticks := 0
    marked_for_optimization := true
    shared := { cShared with bytecode := { cBc with length := 120 } } }

/-- C3: `MaybeOSR` returns true iff the function is marked for
optimization (either mode) or has available optimized code; when it
returns true the function state is updated by `AttemptOnStackReplacement`
exactly when `bytecode.length ≤ 119 + profiler_ticks * 44`, and it
returns true even when that size gate fails; concretely, a marked
function with 0 ticks and bytecode length 120 gets no OSR arming yet
`MaybeOSR` still returns true. -/
theorem maybeOSR_spec (flags : Flags) (f : JSFunction) :
    ((MaybeOSR flags f).1 =
      (f.marked_for_optimization || f.marked_for_concurrent_optimization ||
        f.has_available_optimized_code))
    ∧ ((MaybeOSR flags f).2 =
        if f.marked_for_optimization || f.marked_for_concurrent_optimization ||
            f.has_available_optimized_code then
          if f.shared.bytecode.length ≤
              kOSRBytecodeSizeAllowanceBase +
                f.profiler_ticks * kOSRBytecodeSizeAllowancePerTick then
            AttemptOnStackReplacement flags f 1
          else f
        else f)
    ∧ MaybeOSR cFlags cFuncS6 = (true, cFuncS6) := by
  refine ⟨?_, ?_, rfl⟩
  · simp only [MaybeOSR]
    split
    · next h => split <;> simp_all
    · next h => simp_all
  · simp only [MaybeOSR]
    split
    · next h => split <;> simp_all
    · next h => simp_all

theorem tickEnsureFeedbackVector_shared (flags : Flags) (f : JSFunction) :
    (tickEnsureFeedbackVector flags f).shared = f.shared := by
  unfold tickEnsureFeedbackVector; split <;> rfl

theorem tickEnsureFeedbackVector_queue (flags : Flags) (f : JSFunction) :
    (tickEnsureFeedbackVector flags f).in_optimization_queue =
      f.in_optimization_queue := by
  unfold tickEnsureFeedbackVector; split <;> rfl

theorem tickEnsureFeedbackVector_marked (flags : Flags) (f : JSFunction) :
    (tickEnsureFeedbackVector flags f).marked_for_optimization =
      f.marked_for_optimization := by
  unfold tickEnsureFeedbackVector; split <;> rfl

theorem tickEnsureFeedbackVector_marked_concurrent (flags : Flags)
    (f : JSFunction) :
    (tickEnsureFeedbackVector flags f).marked_for_concurrent_optimization =
      f.marked_for_concurrent_optimization := by
  unfold tickEnsureFeedbackVector; split <;> rfl

theorem tickBumpProfilerTicks_shared (f : JSFunction) :
    (tickBumpProfilerTicks f).shared = f.shared := rfl

theorem tickBumpProfilerTicks_queue (f : JSFunction) :
    (tickBumpProfilerTicks f).in_optimization_queue =
      f.in_optimization_queue := rfl

theorem tickBumpProfilerTicks_marked (f : JSFunction) :
    (tickBumpProfilerTicks f).marked_for_optimization =
      f.marked_for_optimization := rfl

theorem tickBumpProfilerTicks_marked_concurrent (f : JSFunction) :
    (tickBumpProfilerTicks f).marked_for_concurrent_optimization =
      f.marked_for_concurrent_optimization := rfl

theorem attempt_cache_state (flags : Flags) (f : JSFunction) (n : Nat) :
    (AttemptOnStackReplacement flags f n).shared.osr_code_cache_state =
      f.shared.osr_code_cache_state := by
  simp only [AttemptOnStackReplacement]
  repeat' split
  all_goals rfl

theorem attempt_level_bounds (flags : Flags) (f : JSFunction) (n : Nat)
    (h : f.shared.bytecode.osr_loop_nesting_level ≤ kMaxLoopNestingMarker) :
    f.shared.bytecode.osr_loop_nesting_level ≤
        (AttemptOnStackReplacement flags f n).shared.bytecode.osr_loop_nesting_level
    ∧ (AttemptOnStackReplacement flags f n).shared.bytecode.osr_loop_nesting_level ≤
        kMaxLoopNestingMarker := by
  simp only [AttemptOnStackReplacement]
  split
  · exact ⟨le_refl _, h⟩
  · split
    · exact ⟨le_refl _, h⟩
    · simp only [JSFunction.setOsrLevel, BytecodeArray.set_osr_loop_nesting_level]
      constructor <;> omega

theorem maybeOSR_false_snd (flags : Flags) (f : JSFunction)
    (h : (MaybeOSR flags f).1 = false) : (MaybeOSR flags f).2 = f := by
  by_cases hc : (f.marked_for_optimization || f.marked_for_concurrent_optimization ||
      f.has_available_optimized_code) = true
  · exfalso
    simp only [MaybeOSR, hc, if_true] at h
    split at h <;> simp_all
  · simp [MaybeOSR, hc]

theorem maybeOSR_level_bounds (flags : Flags) (f : JSFunction)
    (h : f.shared.bytecode.osr_loop_nesting_level ≤ kMaxLoopNestingMarker) :
    f.shared.bytecode.osr_loop_nesting_level ≤
        (MaybeOSR flags f).2.shared.bytecode.osr_loop_nesting_level
    ∧ (MaybeOSR flags f).2.shared.bytecode.osr_loop_nesting_level ≤
        kMaxLoopNestingMarker
    ∧ (MaybeOSR flags f).2.shared.osr_code_cache_state =
        f.shared.osr_code_cache_state := by
  simp only [MaybeOSR]
  split
  · split
    · exact ⟨(attempt_level_bounds flags f 1 h).1,
        (attempt_level_bounds flags f 1 h).2, attempt_cache_state flags f 1⟩
    · exact ⟨le_refl _, h, rfl⟩
  · exact ⟨le_refl _, h, rfl⟩

theorem decideAndOptimize_shared_of_notCached (flags : Flags) (env : TickEnv)
    (any_ic_changed : Bool) (f : JSFunction) (frame : Frame)
    (code_kind : CodeKind)
    (h : f.shared.osr_code_cache_state = OSRCodeCacheState.kNotCached) :
    (decideAndOptimize flags env any_ic_changed f frame code_kind).1.shared =
      f.shared := by
  have hs := shouldOptimize_snd_of_no_cache_hit flags any_ic_changed code_kind
    (osrCacheLookup_of_notCached env frame h)
  simp only [decideAndOptimize, Optimize]
  split
  · rw [markForOptimization_shared, hs]
  · rw [hs]

theorem maybeOptimizeFrame_level_bounds (flags : Flags) (env : TickEnv)
    (any_ic_changed : Bool) (f : JSFunction) (frame : Frame)
    (code_kind : CodeKind)
    (hcache : f.shared.osr_code_cache_state = OSRCodeCacheState.kNotCached)
    (hlev : f.shared.bytecode.osr_loop_nesting_level ≤ kMaxLoopNestingMarker) :
    f.shared.bytecode.osr_loop_nesting_level ≤
        (MaybeOptimizeFrame flags env any_ic_changed f frame
          code_kind).1.shared.bytecode.osr_loop_nesting_level
    ∧ (MaybeOptimizeFrame flags env any_ic_changed f frame
        code_kind).1.shared.bytecode.osr_loop_nesting_level ≤ kMaxLoopNestingMarker
    ∧ (MaybeOptimizeFrame flags env any_ic_changed f frame
        code_kind).1.shared.osr_code_cache_state =
        OSRCodeCacheState.kNotCached := by
  simp only [MaybeOptimizeFrame]
  split
  · exact ⟨le_refl _, hlev, hcache⟩
  · split
    · exact ⟨le_refl _, hlev, hcache⟩
    · split
      · exact ⟨le_refl _, hlev, hcache⟩
      · split
        · -- always_osr: arm at max nesting, then decide-and-optimize
          have ha := attempt_level_bounds flags f kMaxLoopNestingMarker hlev
          have hac : (AttemptOnStackReplacement flags f
              kMaxLoopNestingMarker).shared.osr_code_cache_state =
              OSRCodeCacheState.kNotCached := by
            rw [attempt_cache_state]; exact hcache
          rw [decideAndOptimize_shared_of_notCached flags env any_ic_changed _
            frame code_kind hac]
          exact ⟨ha.1, ha.2, hac⟩
        · split
          · split
            · obtain ⟨h1, h2, h3⟩ := maybeOSR_level_bounds flags f hlev
              exact ⟨h1, h2, h3.trans hcache⟩
            · next hfalse =>
              have hsnd := maybeOSR_false_snd flags f (by simpa using hfalse)
              rw [hsnd, decideAndOptimize_shared_of_notCached flags env
                any_ic_changed f frame code_kind hcache]
              exact ⟨le_refl _, hlev, hcache⟩
          · rw [decideAndOptimize_shared_of_notCached flags env any_ic_changed f
              frame code_kind hcache]
            exact ⟨le_refl _, hlev, hcache⟩

theorem onInterruptTick_level_bounds (flags : Flags) (env : TickEnv)
    (any_ic_changed : Bool) (f : JSFunction) (frame : Frame)
    (hcache : f.shared.osr_code_cache_state = OSRCodeCacheState.kNotCached)
    (hlev : f.shared.bytecode.osr_loop_nesting_level ≤ kMaxLoopNestingMarker) :
    f.shared.bytecode.osr_loop_nesting_level ≤
        (OnInterruptTick flags env any_ic_changed f
          frame).func.shared.bytecode.osr_loop_nesting_level
    ∧ (OnInterruptTick flags env any_ic_changed f
        frame).func.shared.bytecode.osr_loop_nesting_level ≤ kMaxLoopNestingMarker
    ∧ (OnInterruptTick flags env any_ic_changed f
        frame).func.shared.osr_code_cache_state =
        OSRCodeCacheState.kNotCached := by
  have hshared : (tickEnsureFeedbackVector flags f).shared = f.shared :=
    tickEnsureFeedbackVector_shared flags f
  simp only [OnInterruptTick]
  split
  · simp only [TickResult.func]
    rw [hshared]
    exact ⟨le_refl _, hlev, hcache⟩
  · split
    · simp only [TickResult.func]
      rw [hshared]
      exact ⟨le_refl _, hlev, hcache⟩
    · simp only [TickResult.func]
      have hsh2 : (tickBumpProfilerTicks
          (tickEnsureFeedbackVector flags f)).shared = f.shared := by
        rw [tickBumpProfilerTicks_shared, hshared]
      have hc2 : (tickBumpProfilerTicks
          (tickEnsureFeedbackVector flags f)).shared.osr_code_cache_state =
          OSRCodeCacheState.kNotCached := by rw [hsh2]; exact hcache
      have hl2 : (tickBumpProfilerTicks
          (tickEnsureFeedbackVector flags f)).shared.bytecode.osr_loop_nesting_level ≤
          kMaxLoopNestingMarker := by rw [hsh2]; exact hlev
      obtain ⟨h1, h2, h3⟩ := maybeOptimizeFrame_level_bounds flags env
        any_ic_changed (tickBumpProfilerTicks (tickEnsureFeedbackVector flags f))
        frame (tickBumpProfilerTicks (tickEnsureFeedbackVector flags f)).active_tier
        hc2 hl2
      rw [hsh2] at h1
      exact ⟨h1, h2, h3⟩

theorem applyOp_level_bounds (f : JSFunction) (op : ControllerOp)
    (hcache : f.shared.osr_code_cache_state = OSRCodeCacheState.kNotCached)
    (hlev : f.shared.bytecode.osr_loop_nesting_level ≤ kMaxLoopNestingMarker) :
    f.shared.bytecode.osr_loop_nesting_level ≤
        (applyOp f op).shared.bytecode.osr_loop_nesting_level
    ∧ (applyOp f op).shared.bytecode.osr_loop_nesting_level ≤
        kMaxLoopNestingMarker
    ∧ (applyOp f op).shared.osr_code_cache_state =
        OSRCodeCacheState.kNotCached := by
  cases op with
  | opTick flags env any_ic frame =>
      exact onInterruptTick_level_bounds flags env any_ic f frame hcache hlev
  | opMaybeOptimizeFrame flags env any_ic frame code_kind =>
      exact maybeOptimizeFrame_level_bounds flags env any_ic f frame code_kind
        hcache hlev
  | opShouldOptimize flags env any_ic code_kind frame =>
      have hs := shouldOptimize_snd_of_no_cache_hit flags any_ic code_kind
        (osrCacheLookup_of_notCached env frame hcache)
      simp only [applyOp, hs]
      exact ⟨le_refl _, hlev, hcache⟩
  | opAttemptOSR flags n =>
      have ha := attempt_level_bounds flags f n hlev
      exact ⟨ha.1, ha.2, by rw [applyOp, attempt_cache_state]; exact hcache⟩

/-- Amended C4: over every sequence of controller operations in which
the OSR-code-cache path of `ShouldOptimize` cannot fire (the SFI's cache
state is `kNotCached`) and starting at or below the marker,
`osr_loop_nesting_level` is non-decreasing and never exceeds
`max_loop_nesting_marker`.  (The cache path itself overwrites the level
with `immediate operand 1 + 1`, unclamped; see the counterexample.) -/
theorem osr_level_monotone_amended (f : JSFunction) (ops : List ControllerOp)
    (hcache : f.shared.osr_code_cache_state = OSRCodeCacheState.kNotCached)
    (hlev : f.shared.bytecode.osr_loop_nesting_level ≤ kMaxLoopNestingMarker) :
    f.shared.bytecode.osr_loop_nesting_level ≤
        (runOps f ops).shared.bytecode.osr_loop_nesting_level
    ∧ (runOps f ops).shared.bytecode.osr_loop_nesting_level ≤
        kMaxLoopNestingMarker := by
  induction ops generalizing f with
  | nil => exact ⟨le_refl _, hlev⟩
  | cons op rest ih =>
    obtain ⟨h1, h2, h3⟩ := applyOp_level_bounds f op hcache hlev
    obtain ⟨h4, h5⟩ := ih (applyOp f op) h3 h2
    exact ⟨le_trans h1 h4, h5⟩

/-- Witness for `osr_level_monotone_amended` at a concrete function and
operation sequence. -/
theorem osr_level_monotone_amended_witness :
    cFunc1.shared.bytecode.osr_loop_nesting_level ≤
        (runOps cFunc1 [ControllerOp.opTick cFlags cEnv true cFrame,
          ControllerOp.opAttemptOSR cFlags 1]).shared.bytecode.osr_loop_nesting_level
    ∧ (runOps cFunc1 [ControllerOp.opTick cFlags cEnv true cFrame,
        ControllerOp.opAttemptOSR cFlags 1]).shared.bytecode.osr_loop_nesting_level ≤
        kMaxLoopNestingMarker :=
  osr_level_monotone_amended cFunc1
    [ControllerOp.opTick cFlags cEnv true cFrame,
      ControllerOp.opAttemptOSR cFlags 1] rfl (by decide)

/-- The C4 counterexample state: a cached SFI whose bytecode array is at
`osr_loop_nesting_level = 5`, with a cached jump at offset 120 (target
40) whose immediate operand 1 is 0. -/
def c4Func : JSFunction :=
  { cFunc1 with
    shared :=
      { cShared with
        osr_code_cache_state := OSRCodeCacheState.kCachedOnce
        bytecode :=
          { cBc with
            osr_loop_nesting_level := 5
            immediateOperand1 := fun _ => 0 } } }

/-- C4 counterexample: the OSR-code-cache path of `ShouldOptimize` (one
of the claim's controller operations) strictly decreases
`osr_loop_nesting_level` (from 5 to 1), so the level is not
non-decreasing over operation sequences. -/
theorem osr_level_monotone_counterexample :
    (applyOp c4Func
        (ControllerOp.opShouldOptimize cFlags
          { cEnv with cache_offsets := [120] } false
          CodeKind.INTERPRETED_FUNCTION cFrame)).shared.bytecode.osr_loop_nesting_level <
      c4Func.shared.bytecode.osr_loop_nesting_level := by decide

/-- C5: while `in_optimization_queue` is set, `MaybeOptimizeFrame`
returns immediately with no state change and no `MarkForOptimization`
event, and an interrupt tick issues no `MarkForOptimization` call. -/
theorem no_double_enqueue (flags : Flags) (env : TickEnv)
    (any_ic_changed : Bool) (f : JSFunction) (frame : Frame)
    (code_kind : CodeKind) (h : f.in_optimization_queue = true) :
    MaybeOptimizeFrame flags env any_ic_changed f frame code_kind = (f, [])
    ∧ (OnInterruptTick flags env any_ic_changed f frame).marks = [] := by
  constructor
  · simp [MaybeOptimizeFrame, h]
  · simp only [OnInterruptTick]
    split
    · rfl
    · split
      · rfl
      · have hq : (tickBumpProfilerTicks
            (tickEnsureFeedbackVector flags f)).in_optimization_queue = true := by
          rw [tickBumpProfilerTicks_queue, tickEnsureFeedbackVector_queue]
          exact h
        simp only [TickResult.marks]
        simp [MaybeOptimizeFrame, hq]

/-- Witness for `no_double_enqueue`. -/
theorem no_double_enqueue_witness :
    MaybeOptimizeFrame cFlags cEnv true
        { cFunc1 with in_optimization_queue := true } cFrame
        CodeKind.INTERPRETED_FUNCTION =
      ({ cFunc1 with in_optimization_queue := true }, [])
    ∧ (OnInterruptTick cFlags cEnv true
        { cFunc1 with in_optimization_queue := true } cFrame).marks = [] :=
  no_double_enqueue cFlags cEnv true
    { cFunc1 with in_optimization_queue := true } cFrame
    CodeKind.INTERPRETED_FUNCTION rfl

/-- C6: with `optimization_disabled` set on the shared info,
`MaybeOptimizeFrame` returns with no state change and no mark,
`AttemptOnStackReplacement` leaves the function untouched, and an
interrupt tick issues no mark and leaves both optimization markers and
the bytecode's `osr_loop_nesting_level` unchanged. -/
theorem optimization_disabled_honored (flags : Flags) (env : TickEnv)
    (any_ic_changed : Bool) (f : JSFunction) (frame : Frame)
    (code_kind : CodeKind) (n : Nat)
    (h : f.shared.optimization_disabled = true) :
    MaybeOptimizeFrame flags env any_ic_changed f frame code_kind = (f, [])
    ∧ AttemptOnStackReplacement flags f n = f
    ∧ (OnInterruptTick flags env any_ic_changed f frame).marks = []
    ∧ (OnInterruptTick flags env any_ic_changed f
        frame).func.marked_for_optimization = f.marked_for_optimization
    ∧ (OnInterruptTick flags env any_ic_changed f
        frame).func.marked_for_concurrent_optimization =
        f.marked_for_concurrent_optimization
    ∧ (OnInterruptTick flags env any_ic_changed f
        frame).func.shared.bytecode.osr_loop_nesting_level =
        f.shared.bytecode.osr_loop_nesting_level := by
  have mf : ∀ (f' : JSFunction) (ck : CodeKind),
      f'.shared.optimization_disabled = true →
      MaybeOptimizeFrame flags env any_ic_changed f' frame ck = (f', []) := by
    intro f' ck h'
    simp [MaybeOptimizeFrame, h']
  refine ⟨mf f code_kind h, by simp [AttemptOnStackReplacement, h], ?_⟩
  simp only [OnInterruptTick]
  split
  · exact ⟨rfl, tickEnsureFeedbackVector_marked flags f,
      tickEnsureFeedbackVector_marked_concurrent flags f,
      by rw [TickResult.func, tickEnsureFeedbackVector_shared]⟩
  · split
    · exact ⟨rfl, tickEnsureFeedbackVector_marked flags f,
        tickEnsureFeedbackVector_marked_concurrent flags f,
        by rw [TickResult.func, tickEnsureFeedbackVector_shared]⟩
    · have h2 : (tickBumpProfilerTicks
          (tickEnsureFeedbackVector flags f)).shared.optimization_disabled =
          true := by
        rw [tickBumpProfilerTicks_shared, tickEnsureFeedbackVector_shared]
        exact h
      rw [TickResult.marks, TickResult.func, mf _ _ h2]
      exact ⟨rfl,
        by rw [tickBumpProfilerTicks_marked, tickEnsureFeedbackVector_marked],
        by rw [tickBumpProfilerTicks_marked_concurrent,
          tickEnsureFeedbackVector_marked_concurrent],
        by rw [tickBumpProfilerTicks_shared, tickEnsureFeedbackVector_shared]⟩

/-- Witness for `optimization_disabled_honored`. -/
theorem optimization_disabled_honored_witness :
    MaybeOptimizeFrame cFlags cEnv true
        { cFunc1 with shared := { cShared with optimization_disabled := true } }
        cFrame CodeKind.INTERPRETED_FUNCTION =
      ({ cFunc1 with shared := { cShared with optimization_disabled := true } }, [])
    ∧ AttemptOnStackReplacement cFlags
        { cFunc1 with shared := { cShared with optimization_disabled := true } } 3 =
      { cFunc1 with shared := { cShared with optimization_disabled := true } } :=
  let f := { cFunc1 with shared := { cShared with optimization_disabled := true } }
  let r := optimization_disabled_honored cFlags cEnv true f cFrame
    CodeKind.INTERPRETED_FUNCTION 3 rfl
  ⟨r.1, r.2.1⟩

/-- The C7 configuration: OSR globally disabled, a non-user-JavaScript
function, and a populated OSR code cache with a jump at offset 120. -/
def c7Flags : Flags := { cFlags with use_osr := false }

def c7Func : JSFunction :=
  { cFunc1 with
    shared :=
      { cShared with
        is_user_javascript := false
        osr_code_cache_state := OSRCodeCacheState.kCachedOnce } }

def c7Env : TickEnv := { cEnv with cache_offsets := [120] }

/-- C7: the OSR-code-cache path of `ShouldOptimize` writes
`osr_loop_nesting_level` to immediate operand 1 of the cached jump
offset plus 1 even though `use_osr` is false and the function is not
user JavaScript — the very guards under which
`AttemptOnStackReplacement` refuses to act on the same state. -/
theorem osr_cache_path_bypasses_guards :
    (ShouldOptimize c7Flags c7Env false c7Func CodeKind.INTERPRETED_FUNCTION
        cFrame).2.shared.bytecode.osr_loop_nesting_level =
      c7Func.shared.bytecode.immediateOperand1 120 + 1
    ∧ (ShouldOptimize c7Flags c7Env false c7Func CodeKind.INTERPRETED_FUNCTION
        cFrame).1 = OptimizationDecision.TurbofanHotAndStable
    ∧ c7Flags.use_osr = false
    ∧ c7Func.shared.is_user_javascript = false
    ∧ c7Func.shared.bytecode.osr_loop_nesting_level = 0
    ∧ ∀ (n : Nat), AttemptOnStackReplacement c7Flags c7Func n = c7Func := by
  refine ⟨by decide, by decide, rfl, rfl, rfl, fun n => rfl⟩

/-- C10: an interrupt tick clears `any_ic_changed` exactly when it
enters the `OnInterruptTickScope` — that is, when the function already
had a feedback vector at tick entry and the optimizer is enabled;
otherwise the tick returns early and the flag is untouched. -/
theorem any_ic_changed_cleared_iff_scope (flags : Flags) (env : TickEnv)
    (any_ic_changed : Bool) (f : JSFunction) (frame : Frame) :
    (OnInterruptTick flags env any_ic_changed f frame).any_ic_changed =
      (if f.has_feedback_vector && env.use_optimizer then false
       else any_ic_changed) := by
  simp only [OnInterruptTick]
  split
  · next h => simp_all
  · split
    · next h h2 => simp_all
    · next h h2 => simp_all

/-- C8: for builtins of kind TFJ / TFC / TFS,
`GetBuiltinFromBytecodeOffset ∘ GetContinuationBytecodeOffset` is the
identity, and on the image of `GetContinuationBytecodeOffset` the
converse composition is the identity too; both functions just add or
subtract `kFirstBuiltinContinuationId`. -/
theorem continuation_offset_roundtrip (kindOf : Int → Kind) (b offset : Int)
    (hkind : kindOf b = Kind.TFJ ∨ kindOf b = Kind.TFC ∨ kindOf b = Kind.TFS)
    (hoffset : offset = GetContinuationBytecodeOffset b) :
    GetBuiltinFromBytecodeOffset (GetContinuationBytecodeOffset b) = b
    ∧ GetContinuationBytecodeOffset (GetBuiltinFromBytecodeOffset offset) =
        offset := by
  subst hoffset
  unfold GetBuiltinFromBytecodeOffset GetContinuationBytecodeOffset
  constructor <;> ring

/-- Witness for `continuation_offset_roundtrip` at builtin id 7 under a
kind assignment making it a TFJ builtin. -/
theorem continuation_offset_roundtrip_witness :
    (fun _ : Int => Kind.TFJ) 7 = Kind.TFJ
    ∧ GetBuiltinFromBytecodeOffset (GetContinuationBytecodeOffset 7) = 7
    ∧ GetContinuationBytecodeOffset
        (GetBuiltinFromBytecodeOffset (GetContinuationBytecodeOffset 7)) =
        GetContinuationBytecodeOffset 7 :=
  ⟨rfl,
    (continuation_offset_roundtrip (fun _ => Kind.TFJ) 7
      (GetContinuationBytecodeOffset 7) (Or.inl rfl) rfl).1,
    (continuation_offset_roundtrip (fun _ => Kind.TFJ) 7
      (GetContinuationBytecodeOffset 7) (Or.inl rfl) rfl).2⟩

theorem installAll_builtin_id (installs : List (Int × Code)) :
    ∀ (table : BuiltinTable) (id : Int),
      (∀ p ∈ installs, (p.2).builtin_id = p.1) →
      (id ∈ installs.map Prod.fst ∨ (table id).builtin_id = id) →
      ((installAll table installs) id).builtin_id = id := by
  induction installs with
  | nil =>
    intro table id _ h
    simpa using h
  | cons p rest ih =>
    intro table id hvalid hmem
    obtain ⟨b, c⟩ := p
    simp only [installAll]
    apply ih
    · intro q hq
      exact hvalid q (List.mem_cons_of_mem _ hq)
    · by_cases hid : id = b
      · right
        subst hid
        have : c.builtin_id = id := hvalid (id, c) (List.mem_cons_self _ _)
        simp [set_code, this]
      · rcases hmem with hmem | hmem
        · simp only [List.map_cons, List.mem_cons] at hmem
          rcases hmem with h1 | h1
          · exact absurd h1 hid
          · left
            simpa using h1
        · right
          simp [set_code, hid, hmem]

/-- C9: after any initialization made of `set_code` installs each
satisfying the `DCHECK_EQ(builtin, code->builtin_id())` precondition and
covering a given id, the builtin table satisfies
`code(id).builtin_id = id`; the handle produced by `code_handle`
(address of the table slot) is recovered by the `IsBuiltinHandle`
address-range check as exactly its index; and a handle located outside
the table's address range yields false. -/
theorem builtin_table_identity (table : BuiltinTable)
    (installs : List (Int × Code)) (id : Int) (table_base : Int)
    (kBuiltinCount : Nat) (b : Int) (loc : Int)
    (hvalid : ∀ p ∈ installs, (p.2).builtin_id = p.1)
    (hid : id ∈ installs.map Prod.fst)
    (hb0 : 0 ≤ b) (hbc : b < (kBuiltinCount : Int))
    (hout : loc < table_base ∨ table_base + (kBuiltinCount : Int) ≤ loc) :
    ((installAll table installs) id).builtin_id = id
    ∧ IsBuiltinHandle table_base kBuiltinCount (code_handle table_base b) =
        some b
    ∧ IsBuiltinHandle table_base kBuiltinCount loc = none := by
  refine ⟨installAll_builtin_id installs table id hvalid (Or.inl hid), ?_, ?_⟩
  · simp only [IsBuiltinHandle, code_handle]
    rw [if_neg (by omega), if_neg (by omega)]
    simp
  · simp only [IsBuiltinHandle]
    rcases hout with h | h
    · rw [if_pos h]
    · rw [if_neg (by omega), if_pos (by omega)]

/-- Witness for `builtin_table_identity`: a two-slot table populated by
two valid installs, based at address 100, probed with the handle of
slot 1 and with the out-of-range address 99. -/
theorem builtin_table_identity_witness :
    ((installAll (fun _ => ⟨0⟩) [(0, ⟨0⟩), (1, ⟨1⟩)]) 1).builtin_id = 1
    ∧ IsBuiltinHandle 100 2 (code_handle 100 1) = some 1
    ∧ IsBuiltinHandle 100 2 99 = none :=
  builtin_table_identity (fun _ => ⟨0⟩) [(0, ⟨0⟩), (1, ⟨1⟩)] 1 100 2 1 99
    (by decide) (by decide) (by decide) (by decide) (Or.inl (by decide))

end V8
